import Mathlib

/-!
A shallow embedding of `src/index.js` of `react-simple-lazy-loader`.

The store is modelled by its two injected mappings plus an event log that
records every call made to the external runtime (`replaceReducer`,
`runSaga`, `task.cancel()`), in order.  Function references (reducers,
sagas, container loaders) are modelled by their identity only, since the
source compares them with `===`.  Thrown JS exceptions (`invariant`
failures, `TypeError`s) are modelled by returning the thrown error together
with the store state at the moment of the throw.  Settled promises are
modelled by their outcome.
-/

/-- Build mode, `process.env.NODE_ENV`. -/
inductive Env where
  | production
  | development
deriving DecidableEq, Repr

/-- A JS function reference: only identity matters (`===` comparisons). -/
abbrev FnRef := Nat

/-- Mode constant `RESTART_ON_REMOUNT` from `src/index.js`. -/
def RESTART_ON_REMOUNT : String := "@@saga-injector/restart-on-remount"

/-- Mode constant `DAEMON` from `src/index.js`. -/
def DAEMON : String := "@@saga-injector/daemon"

/-- Mode constant `ONCE_TILL_UNMOUNT` from `src/index.js`. -/
def ONCE_TILL_UNMOUNT : String := "@@saga-injector/once-till-unmount"

/-- The `allowedModes` list from `src/index.js`. -/
def allowedModes : List String := [RESTART_ON_REMOUNT, DAEMON, ONCE_TILL_UNMOUNT]

/-- Errors thrown by the module: `invariant` failures (the ContractViolation
taxonomy) and JS `TypeError`s from accessing members of non-objects. -/
inductive Err where
  | contract
  | typeError
deriving DecidableEq, Repr

/-- Calls made to the external runtime, recorded in order. -/
inductive Event where
  | replaceReducer
  | runSaga (saga : FnRef) (task : Nat)
  | cancel (task : Nat)
deriving DecidableEq, Repr

/-- A value stored in `store.injectedSagas`: either a full descriptor
`{ saga, mode, task }` or the string sentinel `'done'` written by
`ejectSaga` in production builds. -/
inductive SagaSlot where
  | desc (saga : FnRef) (mode : String) (task : Nat)
  | done
deriving DecidableEq, Repr

/-- Property read `slot.saga`; on the string `'done'` it is `undefined`. -/
def slotSaga : SagaSlot → Option FnRef
  | SagaSlot.desc g _ _ => some g
  | SagaSlot.done => none

/-- Property read `slot.task`; on the string `'done'` it is `undefined`. -/
def slotTask : SagaSlot → Option Nat
  | SagaSlot.desc _ _ t => some t
  | SagaSlot.done => none

/-- String-keyed JS object property read. -/
def getKey {α : Type} : List (String × α) → String → Option α
  | [], _ => none
  | (k', v) :: t, k => if k' = k then some v else getKey t k

/-- String-keyed JS object property write: updates an existing key in
place, else appends (JS objects keep insertion order). -/
def setKey {α : Type} : List (String × α) → String → α → List (String × α)
  | [], k, v => [(k, v)]
  | (k', v') :: t, k, v => if k' = k then (k, v) :: t else (k', v') :: setKey t k v

/-- The mutable store state reached through the injectors, plus the log of
runtime calls.  `nextTask` supplies the fresh task handle returned by each
`store.runSaga` call. -/
structure Store where
  injectedReducers : List (String × FnRef)
  injectedSagas : List (String × SagaSlot)
  nextTask : Nat
  events : List Event
deriving DecidableEq, Repr

/-- Operation `injectReducer(key, reducer)` produced by
`injectReducerFactory` (closure built with `isValid = true`, so `checkStore`
is skipped).  `reducer = none` models a non-function argument; the in-scope
`key : String` makes `isString(key)` hold, so the key check is
`!isEmpty(key)`.  Re-injecting the reference-equal reducer is a no-op;
otherwise the mapping is written and `store.replaceReducer` is called. -/
def injectReducer (s : Store) (key : String) (reducer : Option FnRef) :
    Option Err × Store :=
  match reducer with
  | none => (some Err.contract, s)
  | some r =>
    if key = "" then (some Err.contract, s)
    else if getKey s.injectedReducers key = some r then (none, s)
    else (none, { s with injectedReducers := setKey s.injectedReducers key r,
                         events := s.events ++ [Event.replaceReducer] })

/-- The saga descriptor argument `{ saga?, mode? }`; `saga = none` models a
missing or non-function field, `mode = none` a missing field. -/
structure Descriptor where
  saga : Option FnRef
  mode : Option String
deriving DecidableEq, Repr

/-- Computes `descriptor.mode || DAEMON` (note `""` is falsy in JS). -/
def effMode (d : Descriptor) : String :=
  match d.mode with
  | none => DAEMON
  | some m => if m = "" then DAEMON else m

/-- The saga (re)start step of `injectSaga`: call `store.runSaga` and record
`{ ...newDescriptor, task }` in the mapping. -/
def startStore (s : Store) (key : String) (g : FnRef) (mode : String) : Store :=
  { s with injectedSagas := setKey s.injectedSagas key (SagaSlot.desc g mode s.nextTask),
           nextTask := s.nextTask + 1,
           events := s.events ++ [Event.runSaga g s.nextTask] }

/-- Operation `injectSaga(key, descriptor)` produced by `injectSagaFactory`
(closure built with `isValid = true`).  Control flow of the source:
`checkKey`, then `checkDescriptor` on `newDescriptor` (whose mode is
`descriptor.mode || DAEMON`), then the non-production hot-reload block
(when the stored `oldDescriptor.saga` differs by reference from the new
saga, `oldDescriptor.task.cancel()` runs and the key counts as absent; on
the `'done'` sentinel this throws a `TypeError` because `'done'.task` is
`undefined`), then the start condition
`!hasSaga || (hasSaga && mode !== DAEMON && mode !== ONCE_TILL_UNMOUNT)`. -/
def injectSaga (env : Env) (s : Store) (key : String) (d : Descriptor) :
    Option Err × Store :=
  if key = "" then (some Err.contract, s)
  else
    match d.saga with
    | none => (some Err.contract, s)
    | some g =>
      if allowedModes.contains (effMode d) then
        match env, getKey s.injectedSagas key with
        | _, none => (none, startStore s key g (effMode d))
        | Env.production, some _ =>
          if effMode d = DAEMON ∨ effMode d = ONCE_TILL_UNMOUNT then (none, s)
          else (none, startStore s key g (effMode d))
        | Env.development, some slot =>
          if slotSaga slot = some g then
            if effMode d = DAEMON ∨ effMode d = ONCE_TILL_UNMOUNT then (none, s)
            else (none, startStore s key g (effMode d))
          else
            match slotTask slot with
            | none => (some Err.typeError, s)
            | some t =>
              (none, startStore { s with events := s.events ++ [Event.cancel t] }
                key g (effMode d))
      else (some Err.contract, s)

/-- Operation `ejectSaga(key)` produced by `ejectSagaFactory` (closure built
with `isValid = true`).  On the `'done'` sentinel `descriptor.mode` is
`undefined` (falsy), so the cancel branch is skipped; the same happens when
`mode` is the empty string.  Non-DAEMON entries get their task cancelled;
production builds then overwrite the entry with the `'done'` sentinel while
development builds keep the descriptor for hot reloading. -/
def ejectSaga (env : Env) (s : Store) (key : String) : Option Err × Store :=
  if key = "" then (some Err.contract, s)
  else
    match getKey s.injectedSagas key with
    | none => (none, s)
    | some SagaSlot.done => (none, s)
    | some (SagaSlot.desc _ m t) =>
      if m = "" ∨ m = DAEMON then (none, s)
      else
        match env with
        | Env.production =>
          (none, { s with injectedSagas := setKey s.injectedSagas key SagaSlot.done,
                          events := s.events ++ [Event.cancel t] })
        | Env.development =>
          (none, { s with events := s.events ++ [Event.cancel t] })

/-- Repeated `ejectSaga(key)` calls on the same store, stopping at a thrown
error. -/
def iterEject (env : Env) (key : String) : Nat → Store → Option Err × Store
  | 0, s => (none, s)
  | n + 1, s =>
    match ejectSaga env s key with
    | (none, s1) => iterEject env key n s1
    | (some e, s1) => (some e, s1)

/-- Records which members of a candidate store satisfy the `conformsTo`
shape of `checkStore`: the five callable members and the two mappings. -/
structure StoreShape where
  dispatch : Bool
  subscribe : Bool
  getState : Bool
  replaceReducer : Bool
  runSaga : Bool
  injectedReducers : Bool
  injectedSagas : Bool
deriving DecidableEq, Repr

/-- Validation `checkStore(store)`: `invariant(conformsTo(store, shape))`. -/
def checkStore (sh : StoreShape) : Option Err :=
  if sh.dispatch && sh.subscribe && sh.getState && sh.replaceReducer &&
      sh.runSaga && sh.injectedReducers && sh.injectedSagas then none
  else some Err.contract

/-- Factory `reducerInjectors(store, reducers)`: validates the store, then
returns closures (the closure behaviour is modelled by `injectReducer`). -/
def reducerInjectors (sh : StoreShape) : Option Err := checkStore sh

/-- Factory `sagaInjectors(store)`: validates the store, then returns
closures (modelled by `injectSaga` and `ejectSaga`). -/
def sagaInjectors (sh : StoreShape) : Option Err := checkStore sh

/-- Factory `simpleLazyLoadedRoute(store, reducers)`: builds both injector
sets (each of which validates the store) before returning the provider. -/
def simpleLazyLoadedRoute (sh : StoreShape) : Option Err :=
  match reducerInjectors sh with
  | some e => some e
  | none => sagaInjectors sh

/-- Predicate for a `store.runSaga` call in the event log. -/
def isRunEvent : Event → Bool
  | Event.runSaga _ _ => true
  | _ => false

/-- The number of `store.runSaga` calls recorded in the log. -/
def runsOf (es : List Event) : Nat := es.countP isRunEvent

/-- Predicate for a `cancel()` call on the task handle `t`. -/
def isCancelOf (t : Nat) : Event → Bool
  | Event.cancel u => u == t
  | _ => false

/-- The `{ name, reducer, saga }` fields destructured from a loaded chunk;
`none` models an absent (falsy) `reducer` or `saga` field. -/
structure ChunkExports where
  name : String
  reducer : Option FnRef
  saga : Option FnRef
deriving DecidableEq, Repr

/-- A loaded module: `chunk.default || chunk` picks the default export when
present, else the module object itself. -/
structure Chunk where
  defaultE : Option ChunkExports
  selfE : ChunkExports
deriving DecidableEq, Repr

/-- Evaluates `chunk.default || chunk`. -/
def exportsOf (c : Chunk) : ChunkExports := c.defaultE.getD c.selfE

/-- A JS error value carried by a rejected promise or a caught throw. -/
structure ErrVal where
  tag : String
deriving DecidableEq, Repr

/-- A thrown `Err` converted to the error value handed to `.catch`. -/
def errToVal : Err → ErrVal
  | Err.contract => { tag := "ContractViolation" }
  | Err.typeError => { tag := "TypeError" }

/-- The outcome of a settled promise. -/
inductive POut (α : Type) where
  | res (v : α)
  | rej (e : ErrVal)
deriving DecidableEq, Repr

/-- Combinator `p.then(f)` for a handler that returns normally. -/
def pthen {α β : Type} (p : POut α) (f : α → β) : POut β :=
  match p with
  | POut.res v => POut.res (f v)
  | POut.rej e => POut.rej e

/-- Combinator `p.catch(h)` for a handler that returns normally: a
rejection becomes a resolution with the handler's value. -/
def pcatch {α : Type} (p : POut α) (h : ErrVal → α) : POut α :=
  match p with
  | POut.res v => POut.res v
  | POut.rej e => POut.res (h e)

/-- Combinator `Promise.all`, on settled outcomes: rejects with the leftmost
rejection, else resolves with the list of values. -/
def pall {α : Type} : List (POut α) → POut (List α)
  | [] => POut.res []
  | POut.res v :: ps => pthen (pall ps) (fun vs => v :: vs)
  | POut.rej e :: _ => POut.rej e

/-- Values the promise returned by a route's `Component()` can resolve to:
the constructed container (`containerProvider.apply(this, args)`, recorded
symbolically), a module's default export, `undefined`, or an error value
returned through `.catch`. -/
inductive JsVal where
  | comp (f : FnRef) (thisArg : Option ChunkExports) (args : List ChunkExports)
  | exportsV (e : ChunkExports)
  | undef
  | errV (e : ErrVal)
deriving DecidableEq, Repr

/-- The body of the `chunks.forEach` callback in `applyPromise`:
`if (reducer) injectReducer(name, reducer); if (saga) injectSaga(name, { saga })`. -/
def processChunk (env : Env) (s : Store) (c : Chunk) : Option Err × Store :=
  let e := exportsOf c
  match (match e.reducer with
         | some r => injectReducer s e.name (some r)
         | none => (none, s)) with
  | (some err, s1) => (some err, s1)
  | (none, s1) =>
    match e.saga with
    | some g => injectSaga env s1 e.name { saga := some g, mode := none }
    | none => (none, s1)

/-- The `chunks.forEach(...)` loop: a thrown error aborts the loop (later
chunks are not processed) and the mutations made so far are kept. -/
def processChunks (env : Env) (s : Store) : List Chunk → Option Err × Store
  | [] => (none, s)
  | c :: cs =>
    match processChunk env s c with
    | (none, s1) => processChunks env s1 cs
    | (some e, s1) => (some e, s1)

/-- Function `applyPromise({ injectReducer, injectSaga, container, require })`.
The outer `Except` is the synchronous result: `req = none` models a missing
`require`, where `require || {}` destructures the plain object `{}` with an
array pattern and throws a `TypeError` before any promise is produced.
Otherwise the result is the settled outcome of the returned promise,
together with the store state after the `.then` callback ran: a rejection
of `Promise.all`, or an error thrown inside the callback, is converted by
the final `.catch` into a resolved error value.  For `req = some []` the
destructured `containerPromise` is `undefined`, `Promise.all` resolves, and
`promiseContainer.default` throws a `TypeError` inside the `try` block,
which the `catch` returns as a value. -/
def applyPromise (env : Env) (s : Store) (containerFn : FnRef)
    (req : Option (List (POut Chunk))) : Except Err (POut JsVal) × Store :=
  match req with
  | none => (Except.error Err.typeError, s)
  | some [] =>
    (Except.ok (POut.res (JsVal.errV (errToVal Err.typeError))), s)
  | some (cp :: chunkPs) =>
    match cp with
    | POut.rej e => (Except.ok (POut.res (JsVal.errV e)), s)
    | POut.res c0 =>
      match pall chunkPs with
      | POut.rej e => (Except.ok (POut.res (JsVal.errV e)), s)
      | POut.res chunks =>
        match processChunks env s chunks with
        | (some err, s1) => (Except.ok (POut.res (JsVal.errV (errToVal err))), s1)
        | (none, s1) =>
          (Except.ok (POut.res (JsVal.comp containerFn c0.defaultE (chunks.map exportsOf))), s1)

/-- The `container` field of a route configuration: a loader function or an
in-flight promise for the container module. -/
inductive ContainerVal where
  | fn (f : FnRef)
  | prom (p : POut Chunk)
deriving DecidableEq, Repr

/-- The non-function branch of `Component()`:
`Promise.resolve(container.then(dc => dc.default).catch(error => error))`. -/
def promiseBranch (p : POut Chunk) : POut JsVal :=
  pcatch
    (pthen p (fun m =>
      match m.defaultE with
      | some ex => JsVal.exportsV ex
      | none => JsVal.undef))
    (fun e => JsVal.errV e)

/-- Accessor `Component()` of the descriptor produced by `routeProvider`:
delegates to `applyPromise` when `container` is a function, else resolves
the container promise to its default export. -/
def Component (env : Env) (s : Store) (container : ContainerVal)
    (req : Option (List (POut Chunk))) : Except Err (POut JsVal) × Store :=
  match container with
  | ContainerVal.fn f => applyPromise env s f req
  | ContainerVal.prom p => (Except.ok (promiseBranch p), s)

/-- Reading back the key just written returns the written value. -/
theorem getKey_setKey_self {α : Type} (m : List (String × α)) (k : String) (v : α) :
    getKey (setKey m k v) k = some v := by
  induction m with
  | nil => simp [setKey, getKey]
  | cons p t ih =>
    obtain ⟨k', v'⟩ := p
    by_cases h : k' = k
    · simp [setKey, getKey, h]
    · simp [setKey, getKey, h, ih]

/-- Counting `runSaga` calls distributes over log concatenation. -/
theorem runsOf_append (es fs : List Event) :
    runsOf (es ++ fs) = runsOf es + runsOf fs := by
  simp [runsOf, List.countP_append]

/-- Starting a saga adds exactly one `runSaga` call to the log. -/
theorem runsOf_startStore (s : Store) (key : String) (g : FnRef) (mode : String) :
    runsOf (startStore s key g mode).events = runsOf s.events + 1 := by
  simp [startStore, runsOf, List.countP_append, List.countP_cons, isRunEvent]

/-- When no entry exists at `key`, `injectSaga` starts the saga. -/
theorem injectSaga_absent (env : Env) (s : Store) (key : String) (d : Descriptor)
    (g : FnRef) (hk : key ≠ "") (hg : d.saga = some g)
    (hmode : effMode d ∈ allowedModes)
    (h : getKey s.injectedSagas key = none) :
    injectSaga env s key d = (none, startStore s key g (effMode d)) := by
  cases env <;> simp [injectSaga, hk, hg, hmode, h]

/-- When an entry exists and survives the hot-reload check, `injectSaga`
skips the start for DAEMON and ONCE_TILL_UNMOUNT modes. -/
theorem injectSaga_present_skip (env : Env) (s : Store) (key : String)
    (d : Descriptor) (g : FnRef) (slot : SagaSlot)
    (hk : key ≠ "") (hg : d.saga = some g)
    (hmode : effMode d ∈ allowedModes)
    (h : getKey s.injectedSagas key = some slot)
    (hsame : env = Env.production ∨ slotSaga slot = some g)
    (hmm : effMode d = DAEMON ∨ effMode d = ONCE_TILL_UNMOUNT) :
    injectSaga env s key d = (none, s) := by
  cases env with
  | production => simp [injectSaga, hk, hg, hmode, h, hmm]
  | development =>
    rcases hsame with hp | hs
    · exact absurd hp (by simp)
    · simp [injectSaga, hk, hg, hmode, h, hs, hmm]

/-- When an entry exists and survives the hot-reload check, `injectSaga`
restarts the saga for any other mode (RESTART_ON_REMOUNT). -/
theorem injectSaga_present_restart (env : Env) (s : Store) (key : String)
    (d : Descriptor) (g : FnRef) (slot : SagaSlot)
    (hk : key ≠ "") (hg : d.saga = some g)
    (hmode : effMode d ∈ allowedModes)
    (h : getKey s.injectedSagas key = some slot)
    (hsame : env = Env.production ∨ slotSaga slot = some g)
    (hmm : ¬(effMode d = DAEMON ∨ effMode d = ONCE_TILL_UNMOUNT)) :
    injectSaga env s key d = (none, startStore s key g (effMode d)) := by
  cases env with
  | production => simp [injectSaga, hk, hg, hmode, h, hmm]
  | development =>
    rcases hsame with hp | hs
    · exact absurd hp (by simp)
    · simp [injectSaga, hk, hg, hmode, h, hs, hmm]

/-- The development hot-reload branch: a stored descriptor whose saga
differs by reference gets its task cancelled and the new saga started. -/
theorem injectSaga_dev_hotreload (s : Store) (key : String) (d : Descriptor)
    (g g0 : FnRef) (m0 : String) (t0 : Nat)
    (hk : key ≠ "") (hg : d.saga = some g)
    (hmode : effMode d ∈ allowedModes)
    (h : getKey s.injectedSagas key = some (SagaSlot.desc g0 m0 t0))
    (hne : g0 ≠ g) :
    injectSaga Env.development s key d
      = (none, startStore { s with events := s.events ++ [Event.cancel t0] }
          key g (effMode d)) := by
  simp [injectSaga, hk, hg, hmode, h, slotSaga, slotTask, hne]

/-- Production `injectSaga` never calls `cancel()`. -/
theorem injectSaga_prod_no_cancel (s : Store) (key : String) (d : Descriptor)
    (t : Nat) :
    ((injectSaga Env.production s key d).2.events.countP (isCancelOf t))
      = s.events.countP (isCancelOf t) := by
  by_cases hk : key = ""
  · simp [injectSaga, hk]
  · cases hg : d.saga with
    | none => simp [injectSaga, hk, hg]
    | some g =>
      by_cases hmode : effMode d ∈ allowedModes
      · cases h : getKey s.injectedSagas key with
        | none =>
          simp [injectSaga, hk, hg, hmode, h, startStore,
            List.countP_append, List.countP_cons, isCancelOf]
        | some slot =>
          by_cases hmm : effMode d = DAEMON ∨ effMode d = ONCE_TILL_UNMOUNT
          · simp [injectSaga, hk, hg, hmode, h, hmm]
          · simp [injectSaga, hk, hg, hmode, h, hmm, startStore,
              List.countP_append, List.countP_cons, isCancelOf]
      · simp [injectSaga, hk, hg, hmode]

/-- Ejecting a key that holds the `'done'` sentinel is a no-op. -/
theorem ejectSaga_done (env : Env) (s : Store) (key : String) (hk : key ≠ "")
    (h : getKey s.injectedSagas key = some SagaSlot.done) :
    ejectSaga env s key = (none, s) := by
  simp [ejectSaga, hk, h]

/-- Iterated ejection is a fixed point on the `'done'` sentinel. -/
theorem iterEject_done (env : Env) (key : String) (hk : key ≠ "") (n : Nat) :
    ∀ s : Store, getKey s.injectedSagas key = some SagaSlot.done →
      iterEject env key n s = (none, s) := by
  induction n with
  | zero => intro s _; rfl
  | succ n ih =>
    intro s h
    simp [iterEject, ejectSaga_done env s key hk h]
    exact ih s h

/-- In development builds each ejection of a retained non-DAEMON entry
cancels its task again: `n` calls record `n` cancels. -/
theorem iterEject_dev_cancels (key : String) (g : FnRef) (m : String) (t : Nat)
    (hk : key ≠ "") (hm : ¬(m = "" ∨ m = DAEMON)) (n : Nat) :
    ∀ s : Store, getKey s.injectedSagas key = some (SagaSlot.desc g m t) →
      ((iterEject Env.development key n s).2.events.countP (isCancelOf t))
        = s.events.countP (isCancelOf t) + n := by
  induction n with
  | zero => intro s _; rfl
  | succ n ih =>
    intro s h
    have heject : ejectSaga Env.development s key
        = (none, { s with events := s.events ++ [Event.cancel t] }) := by
      simp [ejectSaga, hk, h, hm]
    simp only [iterEject, heject]
    rw [ih _ (by simpa using h)]
    simp [List.countP_append, List.countP_cons, isCancelOf]
    omega

/-- The `Promise.all` of a list of already-resolved promises resolves to
the list of their values. -/
theorem pall_map_res {α : Type} (l : List α) :
    pall (l.map POut.res) = POut.res l := by
  induction l with
  | nil => rfl
  | cons a t ih => simp [pall, ih, pthen]

/-- An empty store, shared by the concrete witnesses below. -/
def emptyStore : Store :=
  { injectedReducers := [], injectedSagas := [], nextTask := 0, events := [] }

/-- C3: `injectReducer` is idempotent.  When `injectedReducers[key]` is
already reference-equal to the supplied reducer the call is a no-op
(mapping and event log untouched, so `replaceReducer` is not called);
otherwise two successive calls with the same reducer write the mapping and
call `replaceReducer` exactly once (the second call is the identity), and
an injected entry is only replaced when a different reference arrives. -/
theorem injectReducerIdempotent (s : Store) (key : String) (r : FnRef)
    (hk : key ≠ "") :
    (getKey s.injectedReducers key = some r → injectReducer s key (some r) = (none, s)) ∧
    (getKey s.injectedReducers key ≠ some r →
      ∃ s1, injectReducer s key (some r) = (none, s1) ∧
        injectReducer s1 key (some r) = (none, s1) ∧
        s1.events = s.events ++ [Event.replaceReducer] ∧
        getKey s1.injectedReducers key = some r) := by
  constructor
  · intro h
    simp [injectReducer, hk, h]
  · intro h
    have hstep : injectReducer s key (some r)
        = (none, { s with injectedReducers := setKey s.injectedReducers key r,
                          events := s.events ++ [Event.replaceReducer] }) := by
      simp [injectReducer, hk, h]
    exact ⟨_, hstep, by simp [injectReducer, hk, getKey_setKey_self], rfl,
      by simpa using getKey_setKey_self s.injectedReducers key r⟩

/-- Witness for C3 at a concrete input: the scenario of the spec, with key
`users` and a fresh store. -/
theorem injectReducerIdempotent_witness :
    ∃ s1, injectReducer emptyStore "users" (some 9) = (none, s1) ∧
      injectReducer s1 "users" (some 9) = (none, s1) ∧
      s1.events = emptyStore.events ++ [Event.replaceReducer] ∧
      getKey s1.injectedReducers "users" = some 9 :=
  (injectReducerIdempotent emptyStore "users" 9 (by decide)).2 (by decide)

/-- C5: `ejectSaga` never cancels a DAEMON entry.  If `injectedSagas[key]`
holds a descriptor with mode `DAEMON`, `ejectSaga(key)` returns the store
unchanged in both builds: no `cancel()` is recorded and the entry stays. -/
theorem ejectDaemonUntouched (env : Env) (s : Store) (key : String)
    (g t : Nat) (hk : key ≠ "")
    (h : getKey s.injectedSagas key = some (SagaSlot.desc g DAEMON t)) :
    ejectSaga env s key = (none, s) := by
  simp [ejectSaga, hk, h]

/-- Witness for C5 at a concrete input. -/
theorem ejectDaemonUntouched_witness :
    ejectSaga Env.production
      { injectedReducers := [], injectedSagas := [("k", SagaSlot.desc 7 DAEMON 0)],
        nextTask := 1, events := [Event.runSaga 7 0] } "k"
    = (none,
      { injectedReducers := [], injectedSagas := [("k", SagaSlot.desc 7 DAEMON 0)],
        nextTask := 1, events := [Event.runSaga 7 0] }) :=
  ejectDaemonUntouched Env.production _ "k" 7 0 (by decide) (by decide)

/-- C10: when `container` is a function but `require` is absent,
`Component()` throws a synchronous `TypeError` (the fallback `require || {}`
is destructured with an array pattern and a plain object is not iterable):
no promise is returned, no error-as-value conversion applies, and the store
is untouched. -/
theorem componentMissingRequireThrows (env : Env) (s : Store) (f : FnRef) :
    Component env s (ContainerVal.fn f) none = (Except.error Err.typeError, s) := by
  simp [Component, applyPromise]

/-- C8: when a route's `container` is a promise, `Component()` returns a
promise that always resolves — never rejects — either to the resolved
module's default export (or `undefined` when it has none) or, when the
container promise rejects, to the rejection's error object as a value. -/
theorem componentPromiseNeverRejects (env : Env) (s : Store) (m : Chunk)
    (e : ErrVal) (p : POut Chunk) (req : Option (List (POut Chunk))) :
    Component env s (ContainerVal.prom (POut.res m)) req
      = (Except.ok (POut.res ((m.defaultE.map JsVal.exportsV).getD JsVal.undef)), s) ∧
    Component env s (ContainerVal.prom (POut.rej e)) req
      = (Except.ok (POut.res (JsVal.errV e)), s) ∧
    (∃ v, promiseBranch p = POut.res v) := by
  refine ⟨?_, ?_, ?_⟩
  · cases hm : m.defaultE <;> simp [Component, promiseBranch, pthen, pcatch, hm]
  · simp [Component, promiseBranch, pthen, pcatch]
  · cases p with
    | res v =>
      cases hv : v.defaultE with
      | none => exact ⟨JsVal.undef, by simp [promiseBranch, pthen, pcatch, hv]⟩
      | some ex => exact ⟨JsVal.exportsV ex, by simp [promiseBranch, pthen, pcatch, hv]⟩
    | rej e2 => exact ⟨JsVal.errV e2, by simp [promiseBranch, pthen, pcatch]⟩

/-- C7: every validation failure happens before any mutation.  A store
shape missing any of the seven required members makes each exported factory
(`reducerInjectors`, `sagaInjectors`, `simpleLazyLoadedRoute`) fail with
the ContractViolation error; and `injectReducer`, `injectSaga`, `ejectSaga`
given an invalid key, reducer, or descriptor throw the ContractViolation
with the store exactly as it was: no mapping write and no
`runSaga`/`replaceReducer`/`cancel` call. -/
theorem validationBeforeMutation (env : Env) (sh : StoreShape) (s : Store)
    (key : String) (r : Option FnRef) (d : Descriptor)
    (hsh : sh.dispatch = false ∨ sh.subscribe = false ∨ sh.getState = false ∨
      sh.replaceReducer = false ∨ sh.runSaga = false ∨
      sh.injectedReducers = false ∨ sh.injectedSagas = false) :
    (reducerInjectors sh = some Err.contract ∧ sagaInjectors sh = some Err.contract ∧
      simpleLazyLoadedRoute sh = some Err.contract) ∧
    ((key = "" ∨ r = none) → injectReducer s key r = (some Err.contract, s)) ∧
    ((key = "" ∨ d.saga = none ∨ ¬ (effMode d ∈ allowedModes)) →
      injectSaga env s key d = (some Err.contract, s)) ∧
    (key = "" → ejectSaga env s key = (some Err.contract, s)) := by
  have hcs : checkStore sh = some Err.contract := by
    unfold checkStore
    rcases hsh with h | h | h | h | h | h | h <;> simp [h]
  refine ⟨⟨hcs, hcs, ?_⟩, ?_, ?_, ?_⟩
  · simp [simpleLazyLoadedRoute, reducerInjectors, sagaInjectors, hcs]
  · rintro (hk | hr)
    · cases r with
      | none => simp [injectReducer]
      | some r0 => simp [injectReducer, hk]
    · subst hr; simp [injectReducer]
  · intro h
    by_cases hk : key = ""
    · simp [injectSaga, hk]
    · rcases h with h | h | h
      · exact absurd h hk
      · simp [injectSaga, hk, h]
      · cases hg : d.saga with
        | none => simp [injectSaga, hk, hg]
        | some g => simp [injectSaga, hk, hg, h]
  · intro hk
    simp [ejectSaga, hk]

/-- Witness for C7 at a concrete input: a store shape missing `runSaga`,
an empty key, a non-function reducer and an empty descriptor. -/
theorem validationBeforeMutation_witness :
    (reducerInjectors
        { dispatch := true, subscribe := true, getState := true, replaceReducer := true,
          runSaga := false, injectedReducers := true, injectedSagas := true }
      = some Err.contract ∧
     sagaInjectors
        { dispatch := true, subscribe := true, getState := true, replaceReducer := true,
          runSaga := false, injectedReducers := true, injectedSagas := true }
      = some Err.contract ∧
     simpleLazyLoadedRoute
        { dispatch := true, subscribe := true, getState := true, replaceReducer := true,
          runSaga := false, injectedReducers := true, injectedSagas := true }
      = some Err.contract) ∧
    (("" = "" ∨ (none : Option FnRef) = none) →
      injectReducer emptyStore "" none = (some Err.contract, emptyStore)) ∧
    (("" = "" ∨ Descriptor.saga { saga := none, mode := none } = none ∨
        ¬ (effMode { saga := none, mode := none } ∈ allowedModes)) →
      injectSaga Env.production emptyStore "" { saga := none, mode := none }
        = (some Err.contract, emptyStore)) ∧
    ("" = "" → ejectSaga Env.production emptyStore "" = (some Err.contract, emptyStore)) :=
  validationBeforeMutation Env.production
    { dispatch := true, subscribe := true, getState := true, replaceReducer := true,
      runSaga := false, injectedReducers := true, injectedSagas := true }
    emptyStore "" none { saga := none, mode := none } (by decide)

/-- C1 (amended): in a production build, after `ejectSaga(key)` has ejected
an entry whose mode is ONCE_TILL_UNMOUNT — replacing the mapping entry with
the `'done'` sentinel — a subsequent `injectSaga(key, descriptor)` call
with mode ONCE_TILL_UNMOUNT finds the key still present (the sentinel) and
therefore does NOT call `store.runSaga`: the start condition treats the key
as occupied, the call is a no-op and the entry remains the sentinel. -/
theorem sentinelSkipsOnceTillUnmountReinjection (s : Store) (key : String)
    (g0 g : FnRef) (t : Nat) (hk : key ≠ "")
    (h : getKey s.injectedSagas key = some (SagaSlot.desc g0 ONCE_TILL_UNMOUNT t)) :
    (ejectSaga Env.production s key).1 = none ∧
    getKey (ejectSaga Env.production s key).2.injectedSagas key = some SagaSlot.done ∧
    injectSaga Env.production (ejectSaga Env.production s key).2 key
        { saga := some g, mode := some ONCE_TILL_UNMOUNT }
      = (none, (ejectSaga Env.production s key).2) := by
  have hm : ¬(ONCE_TILL_UNMOUNT = "" ∨ ONCE_TILL_UNMOUNT = DAEMON) := by decide
  have heject : ejectSaga Env.production s key
      = (none, { s with injectedSagas := setKey s.injectedSagas key SagaSlot.done,
                        events := s.events ++ [Event.cancel t] }) := by
    simp [ejectSaga, hk, h, hm]
  have hdone : getKey (ejectSaga Env.production s key).2.injectedSagas key
      = some SagaSlot.done := by
    rw [heject]
    simpa using getKey_setKey_self s.injectedSagas key SagaSlot.done
  refine ⟨by rw [heject], hdone, ?_⟩
  have heff : effMode { saga := some g, mode := some ONCE_TILL_UNMOUNT }
      = ONCE_TILL_UNMOUNT := by simp [effMode, ONCE_TILL_UNMOUNT, DAEMON]
  exact injectSaga_present_skip Env.production _ key _ g SagaSlot.done hk rfl
    (by rw [heff]; decide) hdone (Or.inl rfl) (by rw [heff]; exact Or.inr rfl)

/-- Witness for C1's amended theorem at a concrete input. -/
theorem sentinelSkipsOnceTillUnmountReinjection_witness :
    (ejectSaga Env.production
        { injectedReducers := [], injectedSagas := [("k", SagaSlot.desc 5 ONCE_TILL_UNMOUNT 0)],
          nextTask := 1, events := [Event.runSaga 5 0] } "k").1 = none ∧
    getKey (ejectSaga Env.production
        { injectedReducers := [], injectedSagas := [("k", SagaSlot.desc 5 ONCE_TILL_UNMOUNT 0)],
          nextTask := 1, events := [Event.runSaga 5 0] } "k").2.injectedSagas "k"
      = some SagaSlot.done ∧
    injectSaga Env.production (ejectSaga Env.production
        { injectedReducers := [], injectedSagas := [("k", SagaSlot.desc 5 ONCE_TILL_UNMOUNT 0)],
          nextTask := 1, events := [Event.runSaga 5 0] } "k").2 "k"
        { saga := some 5, mode := some ONCE_TILL_UNMOUNT }
      = (none, (ejectSaga Env.production
        { injectedReducers := [], injectedSagas := [("k", SagaSlot.desc 5 ONCE_TILL_UNMOUNT 0)],
          nextTask := 1, events := [Event.runSaga 5 0] } "k").2) :=
  sentinelSkipsOnceTillUnmountReinjection _ "k" 5 5 0 (by decide) (by decide)

/-- The store of the C1 counterexample: key `k` holds a running
ONCE_TILL_UNMOUNT saga in a production build. -/
def c1Store : Store :=
  { injectedReducers := [], injectedSagas := [("k", SagaSlot.desc 5 ONCE_TILL_UNMOUNT 0)],
    nextTask := 1, events := [Event.runSaga 5 0] }

/-- C1 counterexample: after the production ejection writes the sentinel,
re-injecting under ONCE_TILL_UNMOUNT returns the store unchanged — the
number of `store.runSaga` calls in the log does not grow, so no fresh task
is started, contrary to the claim. -/
theorem c1_counterexample :
    getKey (ejectSaga Env.production c1Store "k").2.injectedSagas "k"
      = some SagaSlot.done ∧
    injectSaga Env.production (ejectSaga Env.production c1Store "k").2 "k"
        { saga := some 5, mode := some ONCE_TILL_UNMOUNT }
      = (none, (ejectSaga Env.production c1Store "k").2) ∧
    runsOf (injectSaga Env.production (ejectSaga Env.production c1Store "k").2 "k"
        { saga := some 5, mode := some ONCE_TILL_UNMOUNT }).2.events
      = runsOf c1Store.events := by decide

/-- The store of the C4 theorem's witness and counterexample: key `k` holds
a running ONCE_TILL_UNMOUNT saga with task handle `0`. -/
def c4Store : Store :=
  { injectedReducers := [], injectedSagas := [("k", SagaSlot.desc 5 ONCE_TILL_UNMOUNT 0)],
    nextTask := 1, events := [] }

/-- C4 (amended): for a saga entry whose mode is neither DAEMON nor falsy,
the count of `cancel()` calls on its task across a sequence of
`ejectSaga(key)` calls depends on the build.  In production builds any
number of ejections cancels exactly once (the first ejection replaces the
entry with the `'done'` sentinel, which later ejections skip); in
non-production builds the descriptor is retained, so every ejection
cancels the task again — `n` calls record `n` cancels, not one. -/
theorem ejectCancelCounts (s : Store) (key : String) (g : FnRef) (m : String)
    (t : Nat) (hk : key ≠ "")
    (h : getKey s.injectedSagas key = some (SagaSlot.desc g m t))
    (hm : ¬(m = "" ∨ m = DAEMON)) :
    (∀ n : Nat, ((iterEject Env.production key (n + 1) s).2.events.countP (isCancelOf t))
      = s.events.countP (isCancelOf t) + 1) ∧
    (∀ n : Nat, ((iterEject Env.development key (n + 1) s).2.events.countP (isCancelOf t))
      = s.events.countP (isCancelOf t) + (n + 1)) := by
  constructor
  · intro n
    have heject : ejectSaga Env.production s key
        = (none, { s with injectedSagas := setKey s.injectedSagas key SagaSlot.done,
                          events := s.events ++ [Event.cancel t] }) := by
      simp [ejectSaga, hk, h, hm]
    simp only [iterEject, heject]
    rw [iterEject_done Env.production key hk n _
      (by simpa using getKey_setKey_self s.injectedSagas key SagaSlot.done)]
    simp [List.countP_append, List.countP_cons, isCancelOf]
  · intro n
    exact iterEject_dev_cancels key g m t hk hm (n + 1) s h

/-- Witness for C4's amended theorem at a concrete input: two ejections
cancel once in production and twice in development. -/
theorem ejectCancelCounts_witness :
    ((iterEject Env.production "k" 2 c4Store).2.events.countP (isCancelOf 0))
      = c4Store.events.countP (isCancelOf 0) + 1 ∧
    ((iterEject Env.development "k" 2 c4Store).2.events.countP (isCancelOf 0))
      = c4Store.events.countP (isCancelOf 0) + 2 :=
  ⟨(ejectCancelCounts c4Store "k" 5 ONCE_TILL_UNMOUNT 0 (by decide) (by decide) (by decide)).1 1,
   (ejectCancelCounts c4Store "k" 5 ONCE_TILL_UNMOUNT 0 (by decide) (by decide) (by decide)).2 1⟩

/-- C4 counterexample: in a non-production build, two `ejectSaga` calls on
a ONCE_TILL_UNMOUNT entry record two `cancel()` calls on its task, not
exactly one as the claim states for both builds. -/
theorem c4_counterexample :
    ((iterEject Env.development "k" 2 c4Store).2.events.countP (isCancelOf 0)) = 2 ∧
    ¬ (((iterEject Env.development "k" 2 c4Store).2.events.countP (isCancelOf 0)) = 1) := by
  decide

/-- C6: hot-reload policy.  In non-production builds only, when
`injectSaga(key, descriptor)` finds an existing entry whose stored saga
differs by reference from the new one, the entry's `task.cancel()` runs and
the key counts as absent, so the new saga is started and recorded.  In
production builds `injectSaga` never records a `cancel()` call. -/
theorem hotReloadPolicy (s : Store) (key : String) (d : Descriptor)
    (g g0 : FnRef) (m0 : String) (t0 : Nat)
    (hk : key ≠ "") (hg : d.saga = some g)
    (hmode : effMode d ∈ allowedModes)
    (h : getKey s.injectedSagas key = some (SagaSlot.desc g0 m0 t0))
    (hne : g0 ≠ g) :
    (∃ s', injectSaga Env.development s key d = (none, s') ∧
      s'.events = s.events ++ [Event.cancel t0, Event.runSaga g s.nextTask] ∧
      getKey s'.injectedSagas key = some (SagaSlot.desc g (effMode d) s.nextTask)) ∧
    (∀ t : Nat, ((injectSaga Env.production s key d).2.events.countP (isCancelOf t))
      = s.events.countP (isCancelOf t)) := by
  constructor
  · refine ⟨_, injectSaga_dev_hotreload s key d g g0 m0 t0 hk hg hmode h hne, ?_, ?_⟩
    · simp [startStore]
    · simpa [startStore] using
        getKey_setKey_self s.injectedSagas key (SagaSlot.desc g (effMode d) s.nextTask)
  · intro t
    exact injectSaga_prod_no_cancel s key d t

/-- Witness for C6 at a concrete input: a different saga reference arrives
for key `k` in development mode. -/
theorem hotReloadPolicy_witness :
    (∃ s', injectSaga Env.development
        { injectedReducers := [], injectedSagas := [("k", SagaSlot.desc 5 DAEMON 0)],
          nextTask := 1, events := [Event.runSaga 5 0] } "k"
        { saga := some 8, mode := none } = (none, s') ∧
      s'.events = [Event.runSaga 5 0] ++ [Event.cancel 0, Event.runSaga 8 1] ∧
      getKey s'.injectedSagas "k"
        = some (SagaSlot.desc 8 (effMode { saga := some 8, mode := none }) 1)) ∧
    (∀ t : Nat, ((injectSaga Env.production
        { injectedReducers := [], injectedSagas := [("k", SagaSlot.desc 5 DAEMON 0)],
          nextTask := 1, events := [Event.runSaga 5 0] } "k"
        { saga := some 8, mode := none }).2.events.countP (isCancelOf t))
      = ([Event.runSaga 5 0] : List Event).countP (isCancelOf t)) :=
  hotReloadPolicy _ "k" { saga := some 8, mode := none } 8 5 DAEMON 0
    (by decide) (by decide) (by decide) (by decide) (by decide)

/-- C2: `injectSaga` calls `store.runSaga` — its log gains exactly one
`runSaga` call and the returned task is recorded under `injectedSagas[key]`
— if and only if either no entry exists at `key` after the non-production
hot-reload check (no entry at all, or a non-production entry holding a
different saga reference) or an entry exists and the effective mode is
neither DAEMON nor ONCE_TILL_UNMOUNT.  Consequently injecting under DAEMON
twice with the same saga reference starts the task exactly once (the
second call is the identity), and injecting under RESTART_ON_REMOUNT twice
starts a new task both times. -/
theorem injectSagaStartPolicy (env : Env) (s : Store) (key : String)
    (d : Descriptor) (g : FnRef) (s' : Store)
    (hk : key ≠ "") (hg : d.saga = some g)
    (hmode : effMode d ∈ allowedModes)
    (hok : injectSaga env s key d = (none, s')) :
    ((runsOf s'.events = runsOf s.events + 1) ↔
      (getKey s.injectedSagas key = none
        ∨ (env ≠ Env.production ∧
            ∃ slot, getKey s.injectedSagas key = some slot ∧ slotSaga slot ≠ some g)
        ∨ (effMode d ≠ DAEMON ∧ effMode d ≠ ONCE_TILL_UNMOUNT))) ∧
    ((runsOf s'.events = runsOf s.events + 1) →
      getKey s'.injectedSagas key = some (SagaSlot.desc g (effMode d) s.nextTask)) ∧
    (getKey s.injectedSagas key = none → effMode d = DAEMON →
      ∃ s1, injectSaga env s key d = (none, s1) ∧
        injectSaga env s1 key d = (none, s1) ∧
        runsOf s1.events = runsOf s.events + 1) ∧
    (getKey s.injectedSagas key = none → effMode d = RESTART_ON_REMOUNT →
      ∃ s1 s2, injectSaga env s key d = (none, s1) ∧
        injectSaga env s1 key d = (none, s2) ∧
        s2.events = s.events
          ++ [Event.runSaga g s.nextTask, Event.runSaga g (s.nextTask + 1)]) := by
  have hmain :
      ((s' = startStore s key g (effMode d) ∨
        ∃ t0, s' = startStore { s with events := s.events ++ [Event.cancel t0] }
          key g (effMode d)) ∧
        (getKey s.injectedSagas key = none
          ∨ (env ≠ Env.production ∧
              ∃ slot, getKey s.injectedSagas key = some slot ∧ slotSaga slot ≠ some g)
          ∨ (effMode d ≠ DAEMON ∧ effMode d ≠ ONCE_TILL_UNMOUNT)))
      ∨ (s' = s ∧
          ¬ (getKey s.injectedSagas key = none
          ∨ (env ≠ Env.production ∧
              ∃ slot, getKey s.injectedSagas key = some slot ∧ slotSaga slot ≠ some g)
          ∨ (effMode d ≠ DAEMON ∧ effMode d ≠ ONCE_TILL_UNMOUNT))) := by
    cases hlook : getKey s.injectedSagas key with
    | none =>
      rw [injectSaga_absent env s key d g hk hg hmode hlook] at hok
      injection hok with h1 h2
      exact Or.inl ⟨Or.inl h2.symm, Or.inl rfl⟩
    | some slot =>
      by_cases hsame : env = Env.production ∨ slotSaga slot = some g
      · by_cases hmm : effMode d = DAEMON ∨ effMode d = ONCE_TILL_UNMOUNT
        · rw [injectSaga_present_skip env s key d g slot hk hg hmode hlook hsame hmm] at hok
          injection hok with h1 h2
          refine Or.inr ⟨h2.symm, ?_⟩
          rintro (ha | ⟨henv, slot', hlk, hnsaga⟩ | ⟨hd1, hd2⟩)
          · cases ha
          · injection hlk with he
            subst he
            rcases hsame with hp | hs
            · exact henv hp
            · exact hnsaga hs
          · rcases hmm with hmm | hmm
            · exact hd1 hmm
            · exact hd2 hmm
        · rw [injectSaga_present_restart env s key d g slot hk hg hmode hlook hsame hmm] at hok
          injection hok with h1 h2
          refine Or.inl ⟨Or.inl h2.symm, Or.inr (Or.inr ⟨?_, ?_⟩)⟩
          · intro hd; exact hmm (Or.inl hd)
          · intro hd; exact hmm (Or.inr hd)
      · push_neg at hsame
        have henv : env = Env.development := by
          cases env
          · exact absurd rfl hsame.1
          · rfl
        subst henv
        cases slot with
        | done =>
          have hbad : injectSaga Env.development s key d = (some Err.typeError, s) := by
            simp [injectSaga, hk, hg, hmode, hlook, slotSaga, slotTask]
          rw [hbad] at hok
          injection hok with h1 h2
          cases h1
        | desc g0 m0 t0 =>
          have hne : g0 ≠ g := by
            intro e
            exact hsame.2 (by simp [slotSaga, e])
          rw [injectSaga_dev_hotreload s key d g g0 m0 t0 hk hg hmode hlook hne] at hok
          injection hok with h1 h2
          refine Or.inl ⟨Or.inr ⟨t0, h2.symm⟩, Or.inr (Or.inl ⟨by simp, ?_⟩)⟩
          exact ⟨SagaSlot.desc g0 m0 t0, rfl, by simp [slotSaga, hne]⟩
  have hrunsStart : ∀ t0 : Nat,
      runsOf (startStore { s with events := s.events ++ [Event.cancel t0] }
        key g (effMode d)).events = runsOf s.events + 1 := by
    intro t0
    rw [runsOf_startStore]
    simp [runsOf, List.countP_append, List.countP_cons, isRunEvent]
  refine ⟨?_, ?_, ?_, ?_⟩
  · rcases hmain with ⟨hstart, hC⟩ | ⟨hid, hnC⟩
    · refine iff_of_true ?_ hC
      rcases hstart with rfl | ⟨t0, rfl⟩
      · exact runsOf_startStore s key g (effMode d)
      · exact hrunsStart t0
    · subst hid
      refine iff_of_false ?_ hnC
      omega
  · intro hruns
    rcases hmain with ⟨hstart, hC⟩ | ⟨hid, hnC⟩
    · rcases hstart with rfl | ⟨t0, rfl⟩
      · simpa [startStore] using
          getKey_setKey_self s.injectedSagas key (SagaSlot.desc g (effMode d) s.nextTask)
      · simpa [startStore] using
          getKey_setKey_self s.injectedSagas key (SagaSlot.desc g (effMode d) s.nextTask)
    · subst hid
      omega
  · intro hnone hD
    refine ⟨startStore s key g (effMode d),
      injectSaga_absent env s key d g hk hg hmode hnone, ?_, runsOf_startStore s key g (effMode d)⟩
    have hlook1 : getKey (startStore s key g (effMode d)).injectedSagas key
        = some (SagaSlot.desc g (effMode d) s.nextTask) := by
      simpa [startStore] using
        getKey_setKey_self s.injectedSagas key (SagaSlot.desc g (effMode d) s.nextTask)
    exact injectSaga_present_skip env _ key d g _ hk hg hmode hlook1
      (Or.inr (by simp [slotSaga])) (Or.inl hD)
  · intro hnone hR
    have hmm : ¬(effMode d = DAEMON ∨ effMode d = ONCE_TILL_UNMOUNT) := by
      rw [hR]; decide
    have hlook1 : getKey (startStore s key g (effMode d)).injectedSagas key
        = some (SagaSlot.desc g (effMode d) s.nextTask) := by
      simpa [startStore] using
        getKey_setKey_self s.injectedSagas key (SagaSlot.desc g (effMode d) s.nextTask)
    refine ⟨startStore s key g (effMode d), _,
      injectSaga_absent env s key d g hk hg hmode hnone,
      injectSaga_present_restart env _ key d g _ hk hg hmode hlook1
        (Or.inr (by simp [slotSaga])) hmm, ?_⟩
    simp [startStore]

/-- The valid RESTART_ON_REMOUNT descriptor used by the C2 witness. -/
def c2Desc : Descriptor := { saga := some 7, mode := some RESTART_ON_REMOUNT }

/-- Witness for C2 at a concrete input: injecting a RESTART_ON_REMOUNT
descriptor into an empty production store satisfies the start-policy
equivalence. -/
theorem injectSagaStartPolicy_witness :
    (runsOf (injectSaga Env.production emptyStore "k" c2Desc).2.events
        = runsOf emptyStore.events + 1) ↔
      (getKey emptyStore.injectedSagas "k" = none
        ∨ (Env.production ≠ Env.production ∧
            ∃ slot, getKey emptyStore.injectedSagas "k" = some slot ∧
              slotSaga slot ≠ some 7)
        ∨ (effMode c2Desc ≠ DAEMON ∧ effMode c2Desc ≠ ONCE_TILL_UNMOUNT)) :=
  (injectSagaStartPolicy Env.production emptyStore "k" c2Desc 7
      (injectSaga Env.production emptyStore "k" c2Desc).2
      (by decide) (by decide) (by decide) (by decide)).1

/-- C9: dependency resolution.  When `container` is a loader function and
all promises in `require` are resolved, `Component()` processes the chunks
in declaration order through the injectors — reducer then saga per chunk,
taken from each chunk's default export or the chunk itself — and resolves
to the applied container; and whenever any promise in `require` rejects,
`Component()` resolves to that rejection as an error value with the store
untouched, so no injection happens before every chunk has resolved. -/
theorem componentLoaderInjectsAfterAllResolve (env : Env) (s : Store)
    (f : FnRef) (c0 : Chunk) (cs : List Chunk)
    (hok : (processChunks env s cs).1 = none) :
    (Component env s (ContainerVal.fn f) (some (POut.res c0 :: cs.map POut.res))
      = (Except.ok (POut.res (JsVal.comp f c0.defaultE (cs.map exportsOf))),
         (processChunks env s cs).2)) ∧
    (∀ (cp : POut Chunk) (qs : List (POut Chunk)) (e : ErrVal),
      pall (cp :: qs) = POut.rej e →
      Component env s (ContainerVal.fn f) (some (cp :: qs))
        = (Except.ok (POut.res (JsVal.errV e)), s)) := by
  constructor
  · rcases hp : processChunks env s cs with ⟨e?, s1⟩
    rw [hp] at hok
    simp only at hok
    subst hok
    simp [Component, applyPromise, pall_map_res, hp]
  · intro cp qs e hrej
    cases cp with
    | rej e0 =>
      simp only [pall] at hrej
      injection hrej with he
      subst he
      simp [Component, applyPromise]
    | res c0' =>
      simp only [pall] at hrej
      cases hq : pall qs with
      | res l => rw [hq] at hrej; simp [pthen] at hrej
      | rej e1 =>
        rw [hq] at hrej
        simp only [pthen] at hrej
        injection hrej with he
        subst he
        simp [Component, applyPromise, hq]

/-- The container module chunk of the C9 witness scenario. -/
def mainChunk : Chunk :=
  { defaultE := some { name := "main", reducer := none, saga := none },
    selfE := { name := "main", reducer := none, saga := none } }

/-- The auxiliary chunk of the C9 witness scenario: its default export
carries `{ name := "profile", reducer := 42 }`. -/
def profileChunk : Chunk :=
  { defaultE := some { name := "profile", reducer := some 42, saga := none },
    selfE := { name := "ignored", reducer := none, saga := none } }

/-- Witness for C9 at the spec's concrete scenario: after `Component()`
resolves, `injectedReducers.profile` is reference-equal to the injected
reducer. -/
theorem componentLoaderInjectsAfterAllResolve_witness :
    Component Env.production emptyStore (ContainerVal.fn 1)
        (some (POut.res mainChunk :: [profileChunk].map POut.res))
      = (Except.ok (POut.res (JsVal.comp 1 mainChunk.defaultE
          ([profileChunk].map exportsOf))),
         (processChunks Env.production emptyStore [profileChunk]).2) ∧
    getKey (processChunks Env.production emptyStore [profileChunk]).2.injectedReducers
        "profile" = some 42 :=
  ⟨(componentLoaderInjectsAfterAllResolve Env.production emptyStore 1 mainChunk
      [profileChunk] (by decide)).1,
   by decide⟩
